import Mathlib

/-!
# AgentLink: mailbox-based task dispatch — shallow embedding

This file embeds the four Python modules of the repository
(`claude_agent.py`, `gemini_agent.py`, `registry.py`, `run_task.py`)
as executable Lean definitions and proves properties of them.

Modelling conventions:
* A parsed JSON document is a `Json` value; JSON numbers are modelled as
  integers (no claim under consideration involves floating point).
* A mailbox file's on-disk content is a `FileContent`: a zero-byte file
  (`.empty`, for which `os.path.getsize(...) > 0` is false), a non-empty
  file that does not parse (`.corrupt`, on which `json.load` raises
  `json.JSONDecodeError`), or a non-empty file that parses to a JSON
  value (`.json j`; every serialized JSON document is non-empty, so its
  size check is always true).
* The filesystem is a map from path to `Option FileContent`
  (`none` = the file does not exist).
* Python exceptions that escape to a `try`/`except` block are modelled by
  taking that handler's branch directly; the handler branches are total
  Lean code, so "the loop never crashes" is totality of the step function.
* Python's `str()` of a parsed-JSON value (used in f-string interpolation)
  is `pyStr`; `repr` escape sequences inside strings are not modelled
  (no claim involves quotes inside identity strings).
-/

/-- Parsed JSON documents, as produced by Python's `json.load`. -/
inductive Json where
  | null
  | bool (b : Bool)
  | num (n : Int)
  | str (s : String)
  | arr (elems : List Json)
  | obj (fields : List (String × Json))

/-- The canonical empty-object sentinel `\x7b\x7d`. -/
def Json.emptyObj : Json := .obj []

/-- Python `dict.get(key)` on a parsed JSON object: the first binding for
`key`, or `none` when absent (parsed dicts have no duplicate keys). -/
def lookupField : List (String × Json) → String → Option Json
  | [], _ => none
  | (k, v) :: rest, key => if k = key then some v else lookupField rest key

/-- Python truthiness of a parsed JSON value (`if data ...`). -/
def Json.isTruthy : Json → Bool
  | .null => false
  | .bool b => b
  | .num n => n != 0
  | .str s => s ≠ ""
  | .arr elems => !elems.isEmpty
  | .obj fields => !fields.isEmpty

/-- Whether a JSON value is a given string (Python `value == "s"`;
comparison with a non-string Python value is `False`). -/
def Json.isStr : Json → String → Bool
  | .str t, s => t = s
  | _, _ => false

/-- Python `value == "s"` where `value` came from `dict.get` (so it may be
`None`, which compares unequal to every string). -/
def optIsStr : Option Json → String → Bool
  | some v, s => v.isStr s
  | none, _ => false

mutual

/-- Python `repr()` of a parsed-JSON value (string escape sequences not
modelled). -/
def pyRepr : Json → String
  | .null => "None"
  | .bool true => "True"
  | .bool false => "False"
  | .num n => toString n
  | .str s => "'" ++ s ++ "'"
  | .arr elems => "[" ++ pyReprList elems ++ "]"
  | .obj fields => "\x7b" ++ pyReprFields fields ++ "\x7d"

/-- `repr` of Python list elements, comma-separated. -/
def pyReprList : List Json → String
  | [] => ""
  | [x] => pyRepr x
  | x :: rest => pyRepr x ++ ", " ++ pyReprList rest

/-- `repr` of Python dict items, comma-separated. -/
def pyReprFields : List (String × Json) → String
  | [] => ""
  | [(k, v)] => "'" ++ k ++ "': " ++ pyRepr v
  | (k, v) :: rest => "'" ++ k ++ "': " ++ pyRepr v ++ ", " ++ pyReprFields rest

end

/-- Python `str()` of a parsed-JSON value, as interpolated by an f-string:
identical to `repr` except on strings. -/
def pyStr : Json → String
  | .str s => s
  | j => pyRepr j

/-- On-disk content of one file. -/
inductive FileContent where
  | empty
  | corrupt
  | json (j : Json)

/-- `os.path.getsize(path) > 0`: false exactly for the zero-byte file. -/
def FileContent.sizePos : FileContent → Bool
  | .empty => false
  | .corrupt => true
  | .json _ => true

/-- The filesystem: `none` means the path does not exist. -/
def FS : Type := String → Option FileContent

/-- `open(path, 'w')` followed by a full `json.dump`-style write. -/
def FS.write (fs : FS) (path : String) (c : FileContent) : FS :=
  fun p => if p = path then some c else fs p

/-- Observable log lines a dispatch cycle can emit (the `print` calls the
claims refer to; routine `[DEBUG]` traces of the happy path are summarized
by `refactorReceived`). -/
inductive Event where
  | clearedInvalid   -- "Warning: ... contained invalid JSON. Cleared."
  | noValidMessage   -- "[DEBUG] No valid JSON-RPC message found in ..."
  | refactorReceived -- "New refactor task received ..."
  | unexpectedError  -- "An unexpected error occurred ..."
  | createdEmpty     -- "... is empty or does not exist ..." / "... not found. Creating it."

/-- Result of one `claude_agent.main()` run: the final filesystem, the
envelope the cycle consumed (read and removed) if any, the emitted events,
and the successive filesystem states after each individual file write
(the intermediate states a crash could expose). -/
structure StepResult where
  fs : FS
  claimed : Option Json
  events : List Event
  trace : List FS

def claude_QUEUE_FILE : String := "message_queue/inbound_claude.json"

/-- `if data.get("jsonrpc") == "2.0"` on a parsed dict. -/
def jsonrpcIs20 (fields : List (String × Json)) : Bool :=
  optIsStr (lookupField fields "jsonrpc") "2.0"

/-- The mocked capability output of `claude_agent.main` (line 36). -/
def claudeOutput : String := "Mocked Claude response: Code refactored successfully."

/-- The response dict built by `claude_agent.main` for a `RequestRefactor`
request (`fromVal` is `params.get('from')` with Python `None` as `.null`,
`messageId` is `data.get("id")`). -/
def claudeResponse (fromVal : Json) (output : String) (messageId : Option Json) : Json :=
  .obj [("jsonrpc", .str "2.0"),
        ("result", .obj [("from", .str "claude"),
                         ("to", fromVal),
                         ("type", .str "TaskCompleted"),
                         ("payload", .str output)]),
        ("id", messageId.getD .null)]

/-- `claude_agent.main`, lines 24–63: the body guarded by
`if data and data.get("jsonrpc") == "2.0"`, given the parsed file content
`data`.  A Python `AttributeError` from calling `.get` on a non-dict is
caught by the outer `except Exception` (line 73), which only prints. -/
def claudeProcess (fs : FS) (data : Json) : StepResult :=
  if data.isTruthy then
    match data with
    | .obj fields =>
      if jsonrpcIs20 fields then
        let method := lookupField fields "method"
        let params := (lookupField fields "params").getD (.obj [])
        let messageId := lookupField fields "id"
        if optIsStr method "RequestRefactor" then
          match params with
          | .obj pfields =>
            -- params.get("code_path") / .get("instruction") are read but
            -- only printed; params.get("from") routes the response.
            let fromVal := (lookupField pfields "from").getD .null
            let response := claudeResponse fromVal claudeOutput messageId
            let dest := "message_queue/inbound_" ++ pyStr fromVal ++ ".json"
            let fs1 := fs.write dest (.json response)
            let fs2 := fs1.write claude_QUEUE_FILE (.json Json.emptyObj)
            ⟨fs2, some data, [.refactorReceived], [fs1, fs2]⟩
          | _ =>
            -- params is not a dict: params.get raises AttributeError,
            -- caught at line 73 before any write.
            ⟨fs, none, [.unexpectedError], []⟩
        else
          -- unknown method: the source has no else branch here at all.
          ⟨fs, none, [], []⟩
      else
        ⟨fs, none, [.noValidMessage], []⟩
    | _ =>
      -- data truthy but not a dict: data.get raises AttributeError,
      -- caught at line 73 before any write.
      ⟨fs, none, [.unexpectedError], []⟩
  else
    ⟨fs, none, [.noValidMessage], []⟩

/-- One run of `claude_agent.main()` (the agent processes a single message
and exits), as a function of the filesystem. -/
def claude_main (fs : FS) : StepResult :=
  match fs claude_QUEUE_FILE with
  | some c =>
    if c.sizePos then
      match c with
      | .corrupt =>
        -- json.JSONDecodeError: truncate and dump \x7b\x7d, then return.
        let fs1 := fs.write claude_QUEUE_FILE (.json Json.emptyObj)
        ⟨fs1, none, [.clearedInvalid], [fs1]⟩
      | .json data => claudeProcess fs data
      | .empty => ⟨fs, none, [], []⟩ -- unreachable: sizePos .empty = false
    else
      -- zero-byte file: ensure it is an empty JSON object.
      let fs1 := fs.write claude_QUEUE_FILE (.json Json.emptyObj)
      ⟨fs1, none, [.createdEmpty], [fs1]⟩
  | none =>
    -- absent file: create it holding \x7b\x7d.
    let fs1 := fs.write claude_QUEUE_FILE (.json Json.emptyObj)
    ⟨fs1, none, [.createdEmpty], [fs1]⟩

/-! ## gemini_agent.py -/

def gemini_QUEUE_FILE : String := "message_queue/inbound_gemini.json"

/-- One file in the gemini model: its content together with its
modification time (`os.path.getmtime`). -/
structure GFile where
  content : FileContent
  mtime : Nat

/-- The filesystem as the gemini loop sees it. -/
def GFS : Type := String → Option GFile

/-- A full write stamping the file's mtime with the current clock. -/
def GFS.write (fs : GFS) (path : String) (c : FileContent) (now : Nat) : GFS :=
  fun p => if p = path then some ⟨c, now⟩ else fs p

/-- The loop-carried state of `gemini_agent.main`: the
`last_modified_time` variable and the filesystem. -/
structure GState where
  lastModified : Nat
  fs : GFS

/-- Result of one iteration of the gemini `while True` loop. -/
structure GResult where
  state : GState
  claimed : Option Json
  events : List Event

/-- The agent's capability (`run_gemini_cli` in the source): a function
from the prompt to either an output string or a raised exception. -/
def Cap : Type := String → Except Unit String

/-- `run_gemini_cli`: the source's mock, which never raises. -/
def run_gemini_cli : Cap :=
  fun _ => .ok "Mocked Gemini response: Code reviewed and approved."

/-- The prompt f-string of `gemini_agent.main` line 42, built from
`params.get("code_path")` and `params.get("instruction")`. -/
def promptOf (pfields : List (String × Json)) : String :=
  "Refactor the code at " ++ pyStr ((lookupField pfields "code_path").getD .null) ++
    " with the following instruction: " ++ pyStr ((lookupField pfields "instruction").getD .null)

/-- The response dict built by `gemini_agent.main` for a `RequestRefactor`
request. -/
def geminiResponse (fromVal : Json) (output : String) (messageId : Option Json) : Json :=
  .obj [("jsonrpc", .str "2.0"),
        ("result", .obj [("from", .str "gemini"),
                         ("to", fromVal),
                         ("type", .str "TaskCompleted"),
                         ("payload", .str output)]),
        ("id", messageId.getD .null)]

/-- `gemini_agent.main`, lines 32–70: the body guarded by
`if data and data.get("jsonrpc") == "2.0"`, given the parsed content
`data` and the file's current mtime `m` (already stored into
`last_modified_time` at line 18 before the file was opened).  Exceptions
reach the loop's `except Exception` (line 77), which prints and lets the
loop continue, with `last_modified_time` left at `m`. -/
def geminiProcess (cap : Cap) (now m : Nat) (fs : GFS) (data : Json) : GResult :=
  if data.isTruthy then
    match data with
    | .obj fields =>
      if jsonrpcIs20 fields then
        let method := lookupField fields "method"
        let params := (lookupField fields "params").getD (.obj [])
        let messageId := lookupField fields "id"
        if optIsStr method "RequestRefactor" then
          match params with
          | .obj pfields =>
            let fromVal := (lookupField pfields "from").getD .null
            match cap (promptOf pfields) with
            | .error _ =>
              -- capability raised: caught at line 77 before any write;
              -- last_modified_time stays at m (set at line 18).
              ⟨⟨m, fs⟩, none, [.unexpectedError]⟩
            | .ok output =>
              let response := geminiResponse fromVal output messageId
              let dest := "message_queue/inbound_" ++ pyStr fromVal ++ ".json"
              let fs1 := fs.write dest (.json response) now
              let fs2 := fs1.write gemini_QUEUE_FILE (.json Json.emptyObj) now
              -- line 71: last_modified_time = os.path.getmtime(QUEUE_FILE)
              -- right after the clearing write, i.e. `now`.
              ⟨⟨now, fs2⟩, some data, [.refactorReceived]⟩
          | _ =>
            ⟨⟨m, fs⟩, none, [.unexpectedError]⟩
        else
          ⟨⟨m, fs⟩, none, []⟩
      else
        ⟨⟨m, fs⟩, none, [.noValidMessage]⟩
    | _ =>
      ⟨⟨m, fs⟩, none, [.unexpectedError]⟩
  else
    ⟨⟨m, fs⟩, none, [.noValidMessage]⟩

/-- One iteration of the `while True` loop of `gemini_agent.main`, at
clock time `now` (writes performed in this iteration get mtime `now`). -/
def gemini_main (cap : Cap) (now : Nat) (st : GState) : GResult :=
  match st.fs gemini_QUEUE_FILE with
  | some gf =>
    -- current_modified_time = getmtime(...); gate at line 16.
    if st.lastModified < gf.mtime && gf.content.sizePos then
      match gf.content with
      | .corrupt =>
        -- json.JSONDecodeError: truncate, dump \x7b\x7d, continue.
        ⟨⟨gf.mtime, st.fs.write gemini_QUEUE_FILE (.json Json.emptyObj) now⟩,
          none, [.clearedInvalid]⟩
      | .json data => geminiProcess cap now gf.mtime st.fs data
      | .empty => ⟨⟨gf.mtime, st.fs⟩, none, []⟩ -- unreachable: sizePos = false
    else
      -- gate closed and the file exists: the iteration does nothing.
      ⟨st, none, []⟩
  | none =>
    -- elif not os.path.exists(...): create it and record its mtime.
    ⟨⟨now, st.fs.write gemini_QUEUE_FILE (.json Json.emptyObj) now⟩,
      none, [.createdEmpty]⟩

/-- Iterating the gemini loop over a list of clock instants. -/
def gemini_iterate (cap : Cap) (nows : List Nat) (st : GState) : GState :=
  match nows with
  | [] => st
  | n :: rest => gemini_iterate cap rest (gemini_main cap n st).state

/-! ## registry.py -/

/-- A configured agent (an element of the `AGENTS` list). -/
structure AgentInfo where
  id : String
  endpoint : String

/-- One value of the `REGISTERED_AGENTS` dict. -/
structure RegEntry where
  endpoint : String
  capabilities : Json
  status : String

/-- The `REGISTERED_AGENTS` table. -/
def Registry : Type := String → Option RegEntry

/-- Dict update `REGISTERED_AGENTS[k] = e`. -/
def Registry.set (r : Registry) (k : String) (e : RegEntry) : Registry :=
  fun k' => if k' = k then some e else r k'

/-- The body of the probed agent's HTTP reply. -/
inductive Card where
  | corrupt        -- `response.json()` raises (requests' JSONDecodeError)
  | parsed (j : Json)

/-- Outcome of `requests.get(agent_json_url, timeout=2)`. -/
inductive HttpResult where
  | failure                              -- timeout / connection refused: RequestException
  | response (status : Nat) (body : Card)

/-- Observable log lines of `discover_agent`. -/
inductive RegEvent where
  | discovered      -- "[REGISTRY] Discovered and registered agent ..."
  | becameInactive  -- "[REGISTRY] Agent ... became inactive ..."
  | notReachable    -- "[REGISTRY] Agent ... is not reachable ..."

/-- Result of one `discover_agent` call; `crashed` records an exception
that escapes the function (not a `requests` exception, hence uncaught). -/
structure RegResult where
  reg : Registry
  events : List RegEvent
  crashed : Bool

/-- The `except requests.exceptions.RequestException` handler of
`discover_agent` (lines 27–32): flip an existing entry to inactive,
leaving its other fields untouched; create nothing otherwise. -/
def registryOnFailure (agentId : String) (r : Registry) : RegResult :=
  match r agentId with
  | some e => ⟨r.set agentId ⟨e.endpoint, e.capabilities, "inactive"⟩, [.becameInactive], false⟩
  | none => ⟨r, [.notReachable], false⟩

/-- `registry.discover_agent`, with the HTTP exchange abstracted as
`http`.  `raise_for_status` raises `HTTPError` (a `RequestException`) for
status codes in [400, 600); an unparsable body makes `response.json()`
raise requests' `JSONDecodeError`, also a `RequestException`; a parsed
body that is not a dict makes `agent_card.get` raise `AttributeError`,
which no handler catches. -/
def discover_agent (http : HttpResult) (agent : AgentInfo) (r : Registry) : RegResult :=
  match http with
  | .failure => registryOnFailure agent.id r
  | .response status body =>
    if 400 ≤ status ∧ status < 600 then
      registryOnFailure agent.id r
    else
      match body with
      | .corrupt => registryOnFailure agent.id r
      | .parsed card =>
        match card with
        | .obj fields =>
          ⟨r.set agent.id
              ⟨agent.endpoint, (lookupField fields "capabilities").getD (.arr []), "active"⟩,
            [.discovered], false⟩
        | _ => ⟨r, [], true⟩

/-- The HTTP outcomes on which the `requests` calls of `discover_agent`
raise `requests.exceptions.RequestException` (the only exception its
handler catches): the GET itself raising (timeout, connection refused),
`raise_for_status` raising on a status in [400, 600), or
`response.json()` raising on an unparsable body.  A non-2xx status
outside [400, 600) raises nothing, and a body that parses to a
non-object raises `AttributeError` later — not a `RequestException`. -/
def raisesRequestException : HttpResult → Bool
  | .failure => true
  | .response status body =>
    (decide (400 ≤ status ∧ status < 600)) ||
      (match body with | .corrupt => true | .parsed _ => false)

/-! ## Reduction lemmas -/

lemma fs_write_self (fs : FS) (p : String) (c : FileContent) :
    (fs.write p c) p = some c := by
  simp [FS.write]

lemma fs_write_other (fs : FS) (p q : String) (c : FileContent) (h : q ≠ p) :
    (fs.write p c) q = fs q := by
  simp [FS.write, h]

lemma gfs_write_self (fs : GFS) (p : String) (c : FileContent) (now : Nat) :
    (fs.write p c now) p = some ⟨c, now⟩ := by
  simp [GFS.write]

lemma gfs_write_other (fs : GFS) (p q : String) (c : FileContent) (now : Nat) (h : q ≠ p) :
    (fs.write p c now) q = fs q := by
  simp [GFS.write, h]

lemma jsonrpc_fields_ne_nil {fields : List (String × Json)}
    (hv : jsonrpcIs20 fields = true) : fields ≠ [] := by
  rintro rfl
  simp [jsonrpcIs20, lookupField, optIsStr] at hv

lemma claude_main_json (fs : FS) (data : Json)
    (hq : fs claude_QUEUE_FILE = some (.json data)) :
    claude_main fs = claudeProcess fs data := by
  unfold claude_main
  rw [hq]
  rfl

lemma gemini_main_json (cap : Cap) (now : Nat) (st : GState) (data : Json) (m : Nat)
    (hq : st.fs gemini_QUEUE_FILE = some ⟨.json data, m⟩)
    (hgate : st.lastModified < m) :
    gemini_main cap now st = geminiProcess cap now m st.fs data := by
  unfold gemini_main
  rw [hq]
  simp [hgate, FileContent.sizePos]

lemma claudeProcess_refactor (fs : FS) (fields pfields : List (String × Json))
    (hv : jsonrpcIs20 fields = true)
    (hm : optIsStr (lookupField fields "method") "RequestRefactor" = true)
    (hp : lookupField fields "params" = some (.obj pfields)) :
    claudeProcess fs (.obj fields) =
      (let fromVal := (lookupField pfields "from").getD .null
       let response := claudeResponse fromVal claudeOutput (lookupField fields "id")
       let dest := "message_queue/inbound_" ++ pyStr fromVal ++ ".json"
       let fs1 := fs.write dest (.json response)
       let fs2 := fs1.write claude_QUEUE_FILE (.json Json.emptyObj)
       ⟨fs2, some (.obj fields), [.refactorReceived], [fs1, fs2]⟩) := by
  obtain ⟨f, rest, rfl⟩ : ∃ f rest, fields = f :: rest := by
    cases fields with
    | nil => exact absurd rfl (jsonrpc_fields_ne_nil hv)
    | cons a t => exact ⟨a, t, rfl⟩
  unfold claudeProcess
  simp [Json.isTruthy, hv, hm, hp]

lemma claudeProcess_unknown (fs : FS) (fields : List (String × Json))
    (hv : jsonrpcIs20 fields = true)
    (hm : optIsStr (lookupField fields "method") "RequestRefactor" = false) :
    claudeProcess fs (.obj fields) = ⟨fs, none, [], []⟩ := by
  obtain ⟨f, rest, rfl⟩ : ∃ f rest, fields = f :: rest := by
    cases fields with
    | nil => exact absurd rfl (jsonrpc_fields_ne_nil hv)
    | cons a t => exact ⟨a, t, rfl⟩
  unfold claudeProcess
  simp [Json.isTruthy, hv, hm]

lemma claudeProcess_badVersion (fs : FS) (fields : List (String × Json))
    (hne : fields ≠ [])
    (hv : jsonrpcIs20 fields = false) :
    claudeProcess fs (.obj fields) = ⟨fs, none, [.noValidMessage], []⟩ := by
  obtain ⟨f, rest, rfl⟩ : ∃ f rest, fields = f :: rest := by
    cases fields with
    | nil => exact absurd rfl hne
    | cons a t => exact ⟨a, t, rfl⟩
  unfold claudeProcess
  simp [Json.isTruthy, hv]

lemma geminiProcess_refactor_ok (cap : Cap) (now m : Nat) (fs : GFS)
    (fields pfields : List (String × Json)) (output : String)
    (hv : jsonrpcIs20 fields = true)
    (hm : optIsStr (lookupField fields "method") "RequestRefactor" = true)
    (hp : lookupField fields "params" = some (.obj pfields))
    (hcap : cap (promptOf pfields) = .ok output) :
    geminiProcess cap now m fs (.obj fields) =
      (let fromVal := (lookupField pfields "from").getD .null
       let response := geminiResponse fromVal output (lookupField fields "id")
       let dest := "message_queue/inbound_" ++ pyStr fromVal ++ ".json"
       let fs1 := fs.write dest (.json response) now
       let fs2 := fs1.write gemini_QUEUE_FILE (.json Json.emptyObj) now
       ⟨⟨now, fs2⟩, some (.obj fields), [.refactorReceived]⟩) := by
  obtain ⟨f, rest, rfl⟩ : ∃ f rest, fields = f :: rest := by
    cases fields with
    | nil => exact absurd rfl (jsonrpc_fields_ne_nil hv)
    | cons a t => exact ⟨a, t, rfl⟩
  unfold geminiProcess
  simp [Json.isTruthy, hv, hm, hp, hcap]

lemma geminiProcess_refactor_err (cap : Cap) (now m : Nat) (fs : GFS)
    (fields pfields : List (String × Json)) (e : Unit)
    (hv : jsonrpcIs20 fields = true)
    (hm : optIsStr (lookupField fields "method") "RequestRefactor" = true)
    (hp : lookupField fields "params" = some (.obj pfields))
    (hcap : cap (promptOf pfields) = .error e) :
    geminiProcess cap now m fs (.obj fields) = ⟨⟨m, fs⟩, none, [.unexpectedError]⟩ := by
  obtain ⟨f, rest, rfl⟩ : ∃ f rest, fields = f :: rest := by
    cases fields with
    | nil => exact absurd rfl (jsonrpc_fields_ne_nil hv)
    | cons a t => exact ⟨a, t, rfl⟩
  unfold geminiProcess
  simp [Json.isTruthy, hv, hm, hp, hcap]

lemma geminiProcess_badVersion (cap : Cap) (now m : Nat) (fs : GFS)
    (fields : List (String × Json))
    (hne : fields ≠ [])
    (hv : jsonrpcIs20 fields = false) :
    geminiProcess cap now m fs (.obj fields) = ⟨⟨m, fs⟩, none, [.noValidMessage]⟩ := by
  obtain ⟨f, rest, rfl⟩ : ∃ f rest, fields = f :: rest := by
    cases fields with
    | nil => exact absurd rfl hne
    | cons a t => exact ⟨a, t, rfl⟩
  unfold geminiProcess
  simp [Json.isTruthy, hv]

/-- Field access `j["k"]` on an envelope value (none when `j` is not an
object or the key is absent). -/
def Json.getField : Json → String → Option Json
  | .obj fields, k => lookupField fields k
  | _, _ => none

/-- The mocked capability output of `gemini_agent.run_gemini_cli`. -/
def geminiOutput : String := "Mocked Gemini response: Code reviewed and approved."

lemma run_gemini_cli_ok (prompt : String) : run_gemini_cli prompt = .ok geminiOutput := rfl

lemma Registry.set_self (r : Registry) (k : String) (e : RegEntry) :
    (r.set k e) k = some e := by
  simp [Registry.set]

lemma Registry.set_other (r : Registry) (k k' : String) (e : RegEntry) (h : k' ≠ k) :
    (r.set k e) k' = r k' := by
  simp [Registry.set, h]

lemma registryOnFailure_spec (agentId : String) (r : Registry) :
    (∀ e, r agentId = some e →
       (registryOnFailure agentId r).reg agentId = some ⟨e.endpoint, e.capabilities, "inactive"⟩ ∧
       ∀ k, k ≠ agentId → (registryOnFailure agentId r).reg k = r k) ∧
    (r agentId = none → ∀ k, (registryOnFailure agentId r).reg k = r k) ∧
    (registryOnFailure agentId r).crashed = false := by
  rcases h : r agentId with _ | e <;> unfold registryOnFailure <;> rw [h]
  · exact ⟨fun e he => Option.noConfusion he, fun _ k => rfl, rfl⟩
  · refine ⟨?_, fun hn => Option.noConfusion hn, rfl⟩
    intro e' he'
    injection he' with hee
    subst hee
    exact ⟨Registry.set_self _ _ _, fun k hk => Registry.set_other _ _ _ _ hk⟩

/-! ## Claims -/

/-- C3 (confirmed): a mailbox file holding structurally invalid
(unparsable) content never derails the next claim attempt: both agents
catch the decode error (the model takes the `except json.JSONDecodeError`
branch, a total function — no unhandled failure), consume nothing, emit
the corruption warning, reset the slot to the empty-object sentinel, and
touch no other file. -/
theorem claim_C3 (fs : FS) (cap : Cap) (now m : Nat) (st : GState)
    (hc : fs claude_QUEUE_FILE = some .corrupt)
    (hg : st.fs gemini_QUEUE_FILE = some ⟨.corrupt, m⟩)
    (hmt : st.lastModified < m) :
    ((claude_main fs).claimed = none ∧
     (claude_main fs).fs claude_QUEUE_FILE = some (.json Json.emptyObj) ∧
     (claude_main fs).events = [.clearedInvalid] ∧
     ∀ p, p ≠ claude_QUEUE_FILE → (claude_main fs).fs p = fs p) ∧
    ((gemini_main cap now st).claimed = none ∧
     (gemini_main cap now st).state.fs gemini_QUEUE_FILE = some ⟨.json Json.emptyObj, now⟩ ∧
     (gemini_main cap now st).events = [.clearedInvalid] ∧
     ∀ p, p ≠ gemini_QUEUE_FILE → (gemini_main cap now st).state.fs p = st.fs p) := by
  have hcl : claude_main fs =
      ⟨fs.write claude_QUEUE_FILE (.json Json.emptyObj), none, [.clearedInvalid],
        [fs.write claude_QUEUE_FILE (.json Json.emptyObj)]⟩ := by
    unfold claude_main
    rw [hc]
    rfl
  have hge : gemini_main cap now st =
      ⟨⟨m, st.fs.write gemini_QUEUE_FILE (.json Json.emptyObj) now⟩, none, [.clearedInvalid]⟩ := by
    unfold gemini_main
    rw [hg]
    simp [hmt, FileContent.sizePos]
  rw [hcl, hge]
  dsimp only
  exact ⟨⟨rfl, fs_write_self _ _ _, rfl, fun p hp => fs_write_other _ _ _ _ hp⟩,
         ⟨rfl, gfs_write_self _ _ _ _, rfl, fun p hp => gfs_write_other _ _ _ _ _ hp⟩⟩

def c3_fs : FS := fun p => if p = claude_QUEUE_FILE then some .corrupt else none

def c3_gfs : GFS := fun p => if p = gemini_QUEUE_FILE then some ⟨.corrupt, 4⟩ else none

/-- Witness for C3 at a concrete corrupt mailbox pair. -/
theorem claim_C3_witness :
    (claude_main c3_fs).fs claude_QUEUE_FILE = some (.json Json.emptyObj) ∧
    (gemini_main run_gemini_cli 9 ⟨1, c3_gfs⟩).state.fs gemini_QUEUE_FILE
      = some ⟨.json Json.emptyObj, 9⟩ := by
  have h := claim_C3 c3_fs run_gemini_cli 9 4 ⟨1, c3_gfs⟩ rfl rfl (by decide)
  exact ⟨h.1.2.1, h.2.2.1⟩

def c7_reg : Registry := fun k =>
  if k = "claude-agent" then
    some ⟨"http://localhost:5000", .arr [.str "RequestRefactor"], "active"⟩
  else none

/-- C7 counterexample: two probe failures the claim covers are mishandled
at concrete inputs.  (a) A non-2xx status (300) that `raise_for_status`
does not raise on, with a parseable object card, makes `discover_agent`
CREATE an Active entry for a previously unknown agent — a failed probe
fabricating an entry.  (b) A malformed card that parses to a non-object
(so it cannot carry a `capabilities` field) raises an uncaught
`AttributeError` in `agent_card.get`, crashing `discover_agent` and
leaving the existing entry's status "active" instead of flipping it to
Inactive. -/
theorem claim_C7_counterexample :
    (discover_agent (.response 300 (.parsed (.obj [("capabilities", .arr [.str "review"])])))
        ⟨"gemini-agent", "http://localhost:5001"⟩ c7_reg).reg "gemini-agent"
      = some ⟨"http://localhost:5001", .arr [.str "review"], "active"⟩ ∧
    c7_reg "gemini-agent" = none ∧
    (discover_agent (.response 200 (.parsed (.arr [])))
        ⟨"claude-agent", "http://localhost:5000"⟩ c7_reg).crashed = true ∧
    (discover_agent (.response 200 (.parsed (.arr [])))
        ⟨"claude-agent", "http://localhost:5000"⟩ c7_reg).reg "claude-agent"
      = some ⟨"http://localhost:5000", .arr [.str "RequestRefactor"], "active"⟩ :=
  ⟨rfl, rfl, rfl, rfl⟩

/-- C7 (amended): the claimed probe-failure semantics hold exactly for
the failures that raise `requests.exceptions.RequestException` —
transport exception (timeout, connection refused), 4xx/5xx status, or a
card body that does not parse: an existing entry flips to inactive with
its capabilities (and every other entry) preserved, and no entry is
fabricated when none exists.  The two remaining failure shapes diverge:
a non-2xx status outside [400, 600) with a parseable object card is
treated as a successful probe and upserts an Active entry (creating one
if absent), and a card parsing to a non-object crashes `discover_agent`
with an uncaught `AttributeError`, leaving the whole registry — including
a stale Active status — unchanged. -/
theorem claim_C7_amended (agent : AgentInfo) (r : Registry) :
    (∀ http, raisesRequestException http = true →
       (∀ e, r agent.id = some e →
          (discover_agent http agent r).reg agent.id
            = some ⟨e.endpoint, e.capabilities, "inactive"⟩ ∧
          ∀ k, k ≠ agent.id → (discover_agent http agent r).reg k = r k) ∧
       (r agent.id = none → ∀ k, (discover_agent http agent r).reg k = r k) ∧
       (discover_agent http agent r).crashed = false) ∧
    (∀ status fields, ¬(400 ≤ status ∧ status < 600) →
       (discover_agent (.response status (.parsed (.obj fields))) agent r).reg agent.id
         = some ⟨agent.endpoint, (lookupField fields "capabilities").getD (.arr []), "active"⟩ ∧
       (discover_agent (.response status (.parsed (.obj fields))) agent r).crashed = false) ∧
    (∀ status j, ¬(400 ≤ status ∧ status < 600) → (∀ fs, j ≠ .obj fs) →
       (discover_agent (.response status (.parsed j)) agent r).crashed = true ∧
       ∀ k, (discover_agent (.response status (.parsed j)) agent r).reg k = r k) := by
  refine ⟨?_, ?_, ?_⟩
  · intro http hfail
    have hred : discover_agent http agent r = registryOnFailure agent.id r := by
      cases http with
      | failure => rfl
      | response status body =>
        unfold discover_agent
        dsimp only
        by_cases h4 : 400 ≤ status ∧ status < 600
        · rw [if_pos h4]
        · rw [if_neg h4]
          cases body with
          | corrupt => rfl
          | parsed j =>
            exfalso
            simp [raisesRequestException, h4] at hfail
    rw [hred]
    exact registryOnFailure_spec agent.id r
  · intro status fields h4
    unfold discover_agent
    dsimp only
    rw [if_neg h4]
    exact ⟨Registry.set_self _ _ _, rfl⟩
  · intro status j h4 hnobj
    unfold discover_agent
    dsimp only
    rw [if_neg h4]
    cases j with
    | obj fs => exact absurd rfl (hnobj fs)
    | null => exact ⟨rfl, fun k => rfl⟩
    | bool b => exact ⟨rfl, fun k => rfl⟩
    | num n => exact ⟨rfl, fun k => rfl⟩
    | str t => exact ⟨rfl, fun k => rfl⟩
    | arr es => exact ⟨rfl, fun k => rfl⟩

/-- Witness for C7 (amended): a transport failure flips the known agent
to inactive keeping its capabilities and registers nothing for the
unknown one; a 503 with an unparsable body behaves the same; a 300 with
an object card upserts an Active entry; a 200 with a list card crashes. -/
theorem claim_C7_witness :
    (discover_agent .failure ⟨"claude-agent", "http://localhost:5000"⟩ c7_reg).reg "claude-agent"
      = some ⟨"http://localhost:5000", .arr [.str "RequestRefactor"], "inactive"⟩ ∧
    (discover_agent .failure ⟨"gemini-agent", "http://localhost:5001"⟩ c7_reg).reg "gemini-agent"
      = none ∧
    (discover_agent (.response 503 .corrupt) ⟨"claude-agent", "http://localhost:5000"⟩ c7_reg).reg
      "claude-agent"
      = some ⟨"http://localhost:5000", .arr [.str "RequestRefactor"], "inactive"⟩ ∧
    (discover_agent (.response 300 (.parsed (.obj []))) ⟨"gemini-agent", "http://localhost:5001"⟩
      c7_reg).reg "gemini-agent"
      = some ⟨"http://localhost:5001", .arr [], "active"⟩ ∧
    (discover_agent (.response 200 (.parsed (.str "no card"))) ⟨"claude-agent", "http://localhost:5000"⟩
      c7_reg).crashed = true := by
  have h1 := (claim_C7_amended ⟨"claude-agent", "http://localhost:5000"⟩ c7_reg).1 .failure rfl
  have h2 := (claim_C7_amended ⟨"gemini-agent", "http://localhost:5001"⟩ c7_reg).1 .failure rfl
  have h3 := (claim_C7_amended ⟨"claude-agent", "http://localhost:5000"⟩ c7_reg).1
    (.response 503 .corrupt) rfl
  have h4 := (claim_C7_amended ⟨"gemini-agent", "http://localhost:5001"⟩ c7_reg).2.1 300 []
    (by decide)
  have h5 := (claim_C7_amended ⟨"claude-agent", "http://localhost:5000"⟩ c7_reg).2.2 200
    (.str "no card") (by decide) (fun fs h => by cases h)
  exact ⟨(h1.1 _ rfl).1, (h2.2.1 rfl "gemini-agent").trans rfl, (h3.1 _ rfl).1, h4.1, h5.1⟩

/-- C8 (confirmed): an envelope whose `jsonrpc` tag (protocol version) is
not the string "2.0" is rejected, not silently ignored: the cycle consumes
nothing, deposits nothing and dispatches no method, and the rejection is
observable as the "No valid JSON-RPC message found" log line — in both
agents. -/
theorem claim_C8 (fs : FS) (cap : Cap) (now m : Nat) (st : GState)
    (fields gfields : List (String × Json))
    (hq : fs claude_QUEUE_FILE = some (.json (.obj fields)))
    (hne : fields ≠ [])
    (hv : jsonrpcIs20 fields = false)
    (hgq : st.fs gemini_QUEUE_FILE = some ⟨.json (.obj gfields), m⟩)
    (hgne : gfields ≠ [])
    (hgv : jsonrpcIs20 gfields = false)
    (hgate : st.lastModified < m) :
    ((claude_main fs).events = [.noValidMessage] ∧
     (claude_main fs).claimed = none ∧
     ∀ p, (claude_main fs).fs p = fs p) ∧
    ((gemini_main cap now st).events = [.noValidMessage] ∧
     (gemini_main cap now st).claimed = none ∧
     ∀ p, (gemini_main cap now st).state.fs p = st.fs p) := by
  have h1 : claude_main fs = ⟨fs, none, [.noValidMessage], []⟩ := by
    rw [claude_main_json fs _ hq, claudeProcess_badVersion fs fields hne hv]
  have h2 : gemini_main cap now st = ⟨⟨m, st.fs⟩, none, [.noValidMessage]⟩ := by
    rw [gemini_main_json cap now st _ m hgq hgate,
        geminiProcess_badVersion cap now m st.fs gfields hgne hgv]
  rw [h1, h2]
  exact ⟨⟨rfl, rfl, fun p => rfl⟩, ⟨rfl, rfl, fun p => rfl⟩⟩

def c8_fields : List (String × Json) :=
  [("jsonrpc", .str "1.0"), ("method", .str "RequestRefactor"), ("id", .num 5)]

def c8_fs : FS := fun p => if p = claude_QUEUE_FILE then some (.json (.obj c8_fields)) else none

def c8_gfs : GFS := fun p => if p = gemini_QUEUE_FILE then some ⟨.json (.obj c8_fields), 6⟩ else none

/-- Witness for C8 at a concrete jsonrpc-1.0 envelope. -/
theorem claim_C8_witness :
    (claude_main c8_fs).events = [.noValidMessage] ∧
    (gemini_main run_gemini_cli 7 ⟨2, c8_gfs⟩).events = [.noValidMessage] := by
  have h := claim_C8 c8_fs run_gemini_cli 7 6 ⟨2, c8_gfs⟩ c8_fields c8_fields
    rfl (List.cons_ne_nil _ _) rfl rfl (List.cons_ne_nil _ _) rfl (by decide)
  exact ⟨h.1.1, h.2.1⟩

/-- C10 (confirmed): the gemini loop consumes a pending envelope only in
a cycle whose observed modification time strictly exceeds the recorded
`last_modified_time`: whenever the mailbox file exists with mtime not
beyond the recorded one, a cycle — and any number of further cycles —
leaves the loop state and every file unchanged and deposits nothing, so a
deposit that does not advance the mtime is never consumed. -/
theorem claim_C10 (cap : Cap) (st : GState) (c : FileContent) (m : Nat)
    (hq : st.fs gemini_QUEUE_FILE = some ⟨c, m⟩)
    (hm : m ≤ st.lastModified) :
    (∀ now, gemini_main cap now st = ⟨st, none, []⟩) ∧
    (∀ nows, gemini_iterate cap nows st = st) := by
  have hstep : ∀ now, gemini_main cap now st = ⟨st, none, []⟩ := by
    intro now
    unfold gemini_main
    rw [hq]
    simp [Nat.not_lt.mpr hm]
  refine ⟨hstep, ?_⟩
  intro nows
  induction nows with
  | nil => rfl
  | cons n rest ih =>
    unfold gemini_iterate
    rw [hstep n]
    exact ih

def c10_fields : List (String × Json) :=
  [("jsonrpc", .str "2.0"), ("method", .str "RequestRefactor"),
   ("params", .obj [("code_path", .str "a.py"), ("instruction", .str "tidy"),
                    ("from", .str "claude")]),
   ("id", .num 11)]

def c10_gfs : GFS := fun p =>
  if p = gemini_QUEUE_FILE then some ⟨.json (.obj c10_fields), 5⟩ else none

/-- Witness for C10: a well-formed pending request whose file mtime equals
the recorded one is not consumed, over one cycle and over three. -/
theorem claim_C10_witness :
    gemini_main run_gemini_cli 8 ⟨5, c10_gfs⟩ = ⟨⟨5, c10_gfs⟩, none, []⟩ ∧
    gemini_iterate run_gemini_cli [6, 7, 8] ⟨5, c10_gfs⟩ = ⟨5, c10_gfs⟩ := by
  have h := claim_C10 run_gemini_cli ⟨5, c10_gfs⟩ (.json (.obj c10_fields)) 5 rfl (by decide)
  exact ⟨h.1 8, h.2 [6, 7, 8]⟩

def c1_env : Json :=
  .obj [("jsonrpc", .str "2.0"), ("method", .str "Translate"),
        ("params", .obj [("from", .str "gemini")]), ("id", .num 3)]

def c1_fs : FS := fun p => if p = claude_QUEUE_FILE then some (.json c1_env) else none

/-- C1 counterexample: a well-formed envelope (protocol 2.0, method,
params with `from`, correlation id) sits in the mailbox, yet the claim
attempt neither returns it nor resets the slot to empty — the envelope is
still there afterward, and a second claim again yields nothing: the pair
of consecutive claims is (None, None), not (envelope, None). -/
theorem claim_C1_counterexample :
    (claude_main c1_fs).claimed = none ∧
    (claude_main c1_fs).fs claude_QUEUE_FILE = some (.json c1_env) ∧
    (claude_main (claude_main c1_fs).fs).claimed = none ∧
    (claude_main (claude_main c1_fs).fs).fs claude_QUEUE_FILE = some (.json c1_env) :=
  ⟨rfl, rfl, rfl, rfl⟩

/-- C1 (amended): the tryClaim contract holds with "well-formed envelope"
restricted to protocol-2.0 `RequestRefactor` requests: an empty, absent or
empty-object mailbox yields no claim and leaves the slot in the
empty-object state, a pending `RequestRefactor` request is returned and
the slot reset to empty, and a second claim without an intervening
deposit yields None with the slot still empty. -/
theorem claim_C1_amended (fsE fs : FS) (fields pfields : List (String × Json))
    (hE : fsE claude_QUEUE_FILE = none ∨ fsE claude_QUEUE_FILE = some .empty ∨
          fsE claude_QUEUE_FILE = some (.json Json.emptyObj))
    (hq : fs claude_QUEUE_FILE = some (.json (.obj fields)))
    (hv : jsonrpcIs20 fields = true)
    (hm : optIsStr (lookupField fields "method") "RequestRefactor" = true)
    (hp : lookupField fields "params" = some (.obj pfields)) :
    ((claude_main fsE).claimed = none ∧
     (claude_main fsE).fs claude_QUEUE_FILE = some (.json Json.emptyObj)) ∧
    ((claude_main fs).claimed = some (.obj fields) ∧
     (claude_main fs).fs claude_QUEUE_FILE = some (.json Json.emptyObj)) ∧
    ((claude_main (claude_main fs).fs).claimed = none ∧
     (claude_main (claude_main fs).fs).fs claude_QUEUE_FILE = some (.json Json.emptyObj)) := by
  have hb1 : claude_main fs = claudeProcess fs (.obj fields) := claude_main_json fs _ hq
  have hb2 := claudeProcess_refactor fs fields pfields hv hm hp
  have hq2 : (claude_main fs).fs claude_QUEUE_FILE = some (.json Json.emptyObj) := by
    rw [hb1, hb2]
    rfl
  have ha : (claude_main fsE).claimed = none ∧
      (claude_main fsE).fs claude_QUEUE_FILE = some (.json Json.emptyObj) := by
    rcases hE with h | h | h
    · unfold claude_main
      rw [h]
      exact ⟨rfl, rfl⟩
    · unfold claude_main
      rw [h]
      exact ⟨rfl, rfl⟩
    · rw [claude_main_json fsE _ h]
      exact ⟨rfl, h⟩
  refine ⟨ha, ⟨?_, hq2⟩, ?_, ?_⟩
  · rw [hb1, hb2]
  · rw [claude_main_json _ _ hq2]
    rfl
  · rw [claude_main_json _ _ hq2]
    exact hq2

def c1w_pfields : List (String × Json) :=
  [("code_path", .str "src/utils/math.js"), ("instruction", .str "simplify"),
   ("from", .str "gemini")]

def c1w_fields : List (String × Json) :=
  [("jsonrpc", .str "2.0"), ("method", .str "RequestRefactor"),
   ("params", .obj c1w_pfields), ("id", .num 1)]

def c1w_fs : FS := fun p => if p = claude_QUEUE_FILE then some (.json (.obj c1w_fields)) else none

def c1w_fsE : FS := fun _ => none

/-- Witness for C1 (amended) at a concrete pending RequestRefactor. -/
theorem claim_C1_witness :
    (claude_main c1w_fsE).fs claude_QUEUE_FILE = some (.json Json.emptyObj) ∧
    (claude_main c1w_fs).claimed = some (.obj c1w_fields) ∧
    (claude_main c1w_fs).fs claude_QUEUE_FILE = some (.json Json.emptyObj) ∧
    (claude_main (claude_main c1w_fs).fs).claimed = none := by
  have h := claim_C1_amended c1w_fsE c1w_fs c1w_fields c1w_pfields
    (Or.inl rfl) rfl rfl rfl rfl
  exact ⟨h.1.2, h.2.1.1, h.2.1.2, h.2.2.1⟩

def c2_env : Json :=
  .obj [("jsonrpc", .str "2.0"), ("method", .str "ReviewCode"),
        ("params", .obj [("code_path", .str "m.py"), ("instruction", .str "review"),
                         ("from", .str "gemini")]),
        ("id", .num 7)]

def c2_fs : FS := fun p => if p = claude_QUEUE_FILE then some (.json c2_env) else none

/-- C2 counterexample: a claimed envelope with an unknown method whose
`from` ("gemini") and correlation id (7) are fully recoverable produces no
MethodNotFound Error: after the cycle the requester's mailbox still does
not exist, no log line was even emitted, and the envelope is still in the
mailbox. -/
theorem claim_C2_counterexample :
    (claude_main c2_fs).fs "message_queue/inbound_gemini.json" = none ∧
    (claude_main c2_fs).events = [] ∧
    (claude_main c2_fs).fs claude_QUEUE_FILE = some (.json c2_env) :=
  ⟨rfl, rfl, rfl⟩

/-- C2 (amended): for a claimed protocol-2.0 envelope whose method is not
`RequestRefactor` (including non-requests, which have no method), the
dispatch loop synthesizes nothing at all: no Error envelope is built or
deposited anywhere, the filesystem is untouched, and no log line is
emitted — the unknown-method branch of the source simply has no code. -/
theorem claim_C2_amended (fs : FS) (fields : List (String × Json))
    (hq : fs claude_QUEUE_FILE = some (.json (.obj fields)))
    (hv : jsonrpcIs20 fields = true)
    (hm : optIsStr (lookupField fields "method") "RequestRefactor" = false) :
    (claude_main fs).claimed = none ∧
    (claude_main fs).events = [] ∧
    ∀ p, (claude_main fs).fs p = fs p := by
  rw [claude_main_json fs _ hq, claudeProcess_unknown fs fields hv hm]
  exact ⟨rfl, rfl, fun p => rfl⟩

def c2w_fields : List (String × Json) :=
  [("jsonrpc", .str "2.0"), ("result", .str "done"), ("id", .num 4)]

def c2w_fs : FS := fun p => if p = claude_QUEUE_FILE then some (.json (.obj c2w_fields)) else none

/-- Witness for C2 (amended) at a concrete claimed non-request envelope. -/
theorem claim_C2_witness :
    (claude_main c2w_fs).claimed = none ∧
    (claude_main c2w_fs).events = [] ∧
    (claude_main c2w_fs).fs claude_QUEUE_FILE = some (.json (.obj c2w_fields)) := by
  have h := claim_C2_amended c2w_fs c2w_fields rfl rfl rfl
  exact ⟨h.1, h.2.1, (h.2.2 claude_QUEUE_FILE).trans rfl⟩

def c4_pfields : List (String × Json) :=
  [("code_path", .str "src/app.py"), ("instruction", .str "clean up"),
   ("from", .str "gemini")]

def c4_fields : List (String × Json) :=
  [("jsonrpc", .str "2.0"), ("method", .str "RequestRefactor"),
   ("params", .obj c4_pfields), ("id", .num 2)]

def c4_fs : FS := fun p => if p = claude_QUEUE_FILE then some (.json (.obj c4_fields)) else none

def c4_resp : Json := claudeResponse (.str "gemini") claudeOutput (some (.num 2))

/-- C4 counterexample: processing a pending request, the cycle's first
write is the response deposit, and in the filesystem state it produces —
a reachable state of the cycle — the response is fully written into the
requester's mailbox while the original request still sits in the
recipient's own mailbox.  A restart in that window reprocesses the
request, so the claimed window-free removal does not hold. -/
theorem claim_C4_counterexample :
    (claude_main c4_fs).trace.head?
      = some (c4_fs.write "message_queue/inbound_gemini.json" (.json c4_resp)) ∧
    (c4_fs.write "message_queue/inbound_gemini.json" (.json c4_resp))
      "message_queue/inbound_gemini.json" = some (.json c4_resp) ∧
    (c4_fs.write "message_queue/inbound_gemini.json" (.json c4_resp))
      claude_QUEUE_FILE = some (.json (.obj c4_fields)) :=
  ⟨rfl, rfl, rfl⟩

/-- C4 (amended): the cycle deposits the response BEFORE clearing its own
mailbox: the first intermediate state of the cycle holds the deposited
response together with the still-present request, and only the final
state has the mailbox cleared — so the request's removal is not
established at the moment the response is written, and a crash between
the two writes leads to reprocessing on restart (at-least-once across
restarts, not at-most-once). -/
theorem claim_C4_amended (fs : FS) (fields pfields : List (String × Json)) (s : String)
    (hq : fs claude_QUEUE_FILE = some (.json (.obj fields)))
    (hv : jsonrpcIs20 fields = true)
    (hm : optIsStr (lookupField fields "method") "RequestRefactor" = true)
    (hp : lookupField fields "params" = some (.obj pfields))
    (hfrom : lookupField pfields "from" = some (.str s))
    (hdest : ("message_queue/inbound_" ++ s ++ ".json") ≠ claude_QUEUE_FILE) :
    (claude_main fs).trace.head?
      = some (fs.write ("message_queue/inbound_" ++ s ++ ".json")
          (.json (claudeResponse (.str s) claudeOutput (lookupField fields "id")))) ∧
    (fs.write ("message_queue/inbound_" ++ s ++ ".json")
        (.json (claudeResponse (.str s) claudeOutput (lookupField fields "id"))))
      ("message_queue/inbound_" ++ s ++ ".json")
      = some (.json (claudeResponse (.str s) claudeOutput (lookupField fields "id"))) ∧
    (fs.write ("message_queue/inbound_" ++ s ++ ".json")
        (.json (claudeResponse (.str s) claudeOutput (lookupField fields "id"))))
      claude_QUEUE_FILE = some (.json (.obj fields)) ∧
    (claude_main fs).fs claude_QUEUE_FILE = some (.json Json.emptyObj) := by
  have hb2 := claudeProcess_refactor fs fields pfields hv hm hp
  rw [hfrom] at hb2
  have hcl := (claude_main_json fs _ hq).trans hb2
  rw [hcl]
  exact ⟨rfl, fs_write_self _ _ _,
    (fs_write_other _ _ _ _ (Ne.symm hdest)).trans hq, rfl⟩

/-- Witness for C4 (amended) at the concrete pending request of the
counterexample. -/
theorem claim_C4_witness :
    (c4_fs.write "message_queue/inbound_gemini.json" (.json c4_resp))
      claude_QUEUE_FILE = some (.json (.obj c4_fields)) ∧
    (claude_main c4_fs).fs claude_QUEUE_FILE = some (.json Json.emptyObj) := by
  have h := claim_C4_amended c4_fs c4_fields c4_pfields "gemini"
    rfl rfl rfl rfl rfl (by decide)
  exact ⟨h.2.2.1, h.2.2.2⟩

def c5_cap : Cap := fun _ => .error ()

def c5_pfields : List (String × Json) :=
  [("code_path", .str "w.py"), ("instruction", .str "fix"), ("from", .str "claude")]

def c5_fields : List (String × Json) :=
  [("jsonrpc", .str "2.0"), ("method", .str "RequestRefactor"),
   ("params", .obj c5_pfields), ("id", .num 8)]

def c5_gfs : GFS := fun p =>
  if p = gemini_QUEUE_FILE then some ⟨.json (.obj c5_fields), 5⟩ else none

/-- C5 counterexample: the capability raises on a claimed request, yet the
requester receives no Error envelope at all — its mailbox still does not
exist after the cycle; the loop merely logs the unexpected-error line and
leaves the (already-claimed-in-vain) request in its own mailbox. -/
theorem claim_C5_counterexample :
    c5_cap (promptOf c5_pfields) = .error () ∧
    (gemini_main c5_cap 9 ⟨0, c5_gfs⟩).state.fs "message_queue/inbound_claude.json" = none ∧
    (gemini_main c5_cap 9 ⟨0, c5_gfs⟩).events = [.unexpectedError] ∧
    (gemini_main c5_cap 9 ⟨0, c5_gfs⟩).state.fs gemini_QUEUE_FILE
      = some ⟨.json (.obj c5_fields), 5⟩ :=
  ⟨rfl, rfl, rfl, rfl⟩

/-- C5 (amended): an exception raised by the capability during a claimed
request is caught by the loop's blanket handler and only logged: the
iteration terminates normally (the loop keeps running), but no Error
envelope — InternalError or otherwise — is deposited for the requester;
no file changes at all, and the recorded mtime advances so the request
will not be retried. -/
theorem claim_C5_amended (cap : Cap) (now m : Nat) (st : GState)
    (fields pfields : List (String × Json)) (e : Unit)
    (hgq : st.fs gemini_QUEUE_FILE = some ⟨.json (.obj fields), m⟩)
    (hgate : st.lastModified < m)
    (hv : jsonrpcIs20 fields = true)
    (hm : optIsStr (lookupField fields "method") "RequestRefactor" = true)
    (hp : lookupField fields "params" = some (.obj pfields))
    (hcap : cap (promptOf pfields) = .error e) :
    (gemini_main cap now st).events = [.unexpectedError] ∧
    (gemini_main cap now st).claimed = none ∧
    (gemini_main cap now st).state.lastModified = m ∧
    ∀ p, (gemini_main cap now st).state.fs p = st.fs p := by
  rw [gemini_main_json cap now st _ m hgq hgate,
      geminiProcess_refactor_err cap now m st.fs fields pfields e hv hm hp hcap]
  exact ⟨rfl, rfl, rfl, fun p => rfl⟩

/-- Witness for C5 (amended) at the concrete failing capability. -/
theorem claim_C5_witness :
    (gemini_main c5_cap 9 ⟨0, c5_gfs⟩).claimed = none ∧
    (gemini_main c5_cap 9 ⟨0, c5_gfs⟩).state.lastModified = 5 := by
  have h := claim_C5_amended c5_cap 9 5 ⟨0, c5_gfs⟩ c5_fields c5_pfields ()
    rfl (by decide) rfl rfl rfl rfl
  exact ⟨h.2.1, h.2.2.1⟩

def c6_fields : List (String × Json) :=
  [("jsonrpc", .str "2.0"), ("method", .str "FormatCode"),
   ("params", .obj [("code_path", .str "f.py"), ("instruction", .str "format"),
                    ("from", .str "gemini")]),
   ("id", .num 9)]

def c6_fs : FS := fun p => if p = claude_QUEUE_FILE then some (.json (.obj c6_fields)) else none

/-- C6 counterexample: a well-formed Request (protocol 2.0, a method, full
params, correlation id) whose method happens not to be `RequestRefactor`
yields ZERO envelopes in the sender's mailbox after the cycle — not
exactly one — and the cycle does not even log anything. -/
theorem claim_C6_counterexample :
    (claude_main c6_fs).fs "message_queue/inbound_gemini.json" = none ∧
    (claude_main c6_fs).events = [] ∧
    (claude_main c6_fs).fs claude_QUEUE_FILE = some (.json (.obj c6_fields)) :=
  ⟨rfl, rfl, rfl⟩

/-- C6 (amended): for every well-formed `RequestRefactor` Request (the
only method either agent implements) with a string `from` naming another
agent, one dispatch cycle deposits exactly one Response envelope into the
sender's mailbox — every other file except the recipient's own (cleared)
mailbox is untouched — and the response's `id` echoes the request's `id`
unchanged; shown for both agents. -/
theorem claim_C6_amended (fs : FS) (st : GState) (now m : Nat)
    (fields pfields gfields gpfields : List (String × Json))
    (s t : String) (cid gcid : Json)
    (hq : fs claude_QUEUE_FILE = some (.json (.obj fields)))
    (hv : jsonrpcIs20 fields = true)
    (hm : optIsStr (lookupField fields "method") "RequestRefactor" = true)
    (hp : lookupField fields "params" = some (.obj pfields))
    (hfrom : lookupField pfields "from" = some (.str s))
    (hid : lookupField fields "id" = some cid)
    (hdest : ("message_queue/inbound_" ++ s ++ ".json") ≠ claude_QUEUE_FILE)
    (hgq : st.fs gemini_QUEUE_FILE = some ⟨.json (.obj gfields), m⟩)
    (hgate : st.lastModified < m)
    (hgv : jsonrpcIs20 gfields = true)
    (hgm : optIsStr (lookupField gfields "method") "RequestRefactor" = true)
    (hgp : lookupField gfields "params" = some (.obj gpfields))
    (hgfrom : lookupField gpfields "from" = some (.str t))
    (hgid : lookupField gfields "id" = some gcid)
    (hgdest : ("message_queue/inbound_" ++ t ++ ".json") ≠ gemini_QUEUE_FILE) :
    ((claude_main fs).fs ("message_queue/inbound_" ++ s ++ ".json")
        = some (.json (claudeResponse (.str s) claudeOutput (some cid))) ∧
     (claudeResponse (.str s) claudeOutput (some cid)).getField "id" = some cid ∧
     (claude_main fs).fs claude_QUEUE_FILE = some (.json Json.emptyObj) ∧
     ∀ p, p ≠ ("message_queue/inbound_" ++ s ++ ".json") → p ≠ claude_QUEUE_FILE →
       (claude_main fs).fs p = fs p) ∧
    ((gemini_main run_gemini_cli now st).state.fs ("message_queue/inbound_" ++ t ++ ".json")
        = some ⟨.json (geminiResponse (.str t) geminiOutput (some gcid)), now⟩ ∧
     (geminiResponse (.str t) geminiOutput (some gcid)).getField "id" = some gcid ∧
     (gemini_main run_gemini_cli now st).state.fs gemini_QUEUE_FILE
        = some ⟨.json Json.emptyObj, now⟩ ∧
     ∀ p, p ≠ ("message_queue/inbound_" ++ t ++ ".json") → p ≠ gemini_QUEUE_FILE →
       (gemini_main run_gemini_cli now st).state.fs p = st.fs p) := by
  have hb2 := claudeProcess_refactor fs fields pfields hv hm hp
  rw [hfrom, hid] at hb2
  have hcl := (claude_main_json fs _ hq).trans hb2
  have hg2 := geminiProcess_refactor_ok run_gemini_cli now m st.fs gfields gpfields
    geminiOutput hgv hgm hgp (run_gemini_cli_ok _)
  rw [hgfrom, hgid] at hg2
  have hge := (gemini_main_json run_gemini_cli now st _ m hgq hgate).trans hg2
  rw [hcl, hge]
  refine ⟨⟨?_, rfl, ?_, fun p hp1 hp2 => ?_⟩, ⟨?_, rfl, ?_, fun p hp1 hp2 => ?_⟩⟩
  · exact (fs_write_other _ _ _ _ hdest).trans (fs_write_self _ _ _)
  · rfl
  · exact (fs_write_other _ _ _ _ hp2).trans (fs_write_other _ _ _ _ hp1)
  · exact (gfs_write_other _ _ _ _ _ hgdest).trans (gfs_write_self _ _ _ _)
  · rfl
  · exact (gfs_write_other _ _ _ _ _ hp2).trans (gfs_write_other _ _ _ _ _ hp1)

def c6w_pfields : List (String × Json) :=
  [("code_path", .str "lib/core.py"), ("instruction", .str "extract helper"),
   ("from", .str "gemini")]

def c6w_fields : List (String × Json) :=
  [("jsonrpc", .str "2.0"), ("method", .str "RequestRefactor"),
   ("params", .obj c6w_pfields), ("id", .num 1)]

def c6w_fs : FS := fun p => if p = claude_QUEUE_FILE then some (.json (.obj c6w_fields)) else none

def c6w_gpfields : List (String × Json) :=
  [("code_path", .str "lib/io.py"), ("instruction", .str "inline helper"),
   ("from", .str "claude")]

def c6w_gfields : List (String × Json) :=
  [("jsonrpc", .str "2.0"), ("method", .str "RequestRefactor"),
   ("params", .obj c6w_gpfields), ("id", .num 2)]

def c6w_gfs : GFS := fun p =>
  if p = gemini_QUEUE_FILE then some ⟨.json (.obj c6w_gfields), 5⟩ else none

/-- Witness for C6 (amended): concrete cross requests get exactly the
echoed-id responses in the opposite mailboxes. -/
theorem claim_C6_witness :
    (claude_main c6w_fs).fs "message_queue/inbound_gemini.json"
      = some (.json (claudeResponse (.str "gemini") claudeOutput (some (.num 1)))) ∧
    (gemini_main run_gemini_cli 9 ⟨0, c6w_gfs⟩).state.fs "message_queue/inbound_claude.json"
      = some ⟨.json (geminiResponse (.str "claude") geminiOutput (some (.num 2))), 9⟩ := by
  have h := claim_C6_amended c6w_fs ⟨0, c6w_gfs⟩ 9 5
    c6w_fields c6w_pfields c6w_gfields c6w_gpfields "gemini" "claude" (.num 1) (.num 2)
    rfl rfl rfl rfl rfl rfl (by decide)
    rfl (by decide) rfl rfl rfl rfl rfl (by decide)
  exact ⟨h.1.1, h.2.1⟩
